import Mathlib

/-
Verification of the insysbio fivedb-api-examples client library
(`insysbio_db.py`): vocabulary selection, bearer-token caching,
authenticated API calls, dictionary caching and parsing, header-catalog
lookup, and query parameter assembly.

The embedding is a shallow one: the filesystem caches are explicit
`Option`-valued state, HTTP responses are explicit inputs, wall-clock
time is an explicit `Int` parameter, and Python exceptions are the error
side of `Except`.
-/

namespace InsysbioDB

/-- JSON values as decoded by Python's `json.loads`. -/
inductive Json where
  | null : Json
  | bool : Bool → Json
  | num : Int → Json
  | str : String → Json
  | arr : List Json → Json
  | obj : List (String × Json) → Json

/-- Python dictionary lookup `d.get(key)` on a decoded JSON object's fields:
first binding of the key, `none` when absent. -/
def Json.getField : List (String × Json) → String → Option Json
  | [], _ => none
  | (k, v) :: rest, key => if k = key then some v else Json.getField rest key

/-- The Python exceptions the embedded code can raise. -/
inductive PyError where
  | valueError (msg : String)
  | attributeError
  | exception (msg : String)
  | jsonDecodeError
deriving DecidableEq, Repr

/-- `DBManagerBase.select_elements` (insysbio_db.py lines 32-40):
`missing = set(user_elements) - set(db_elements)`; if nonempty, raise a
`ValueError` naming the missing values, else return the sublist of
`user_elements` whose members are in `db_elements`. The error carries the
(deduplicated) missing values that the Python message joins. -/
def select_elements (user_elements db_elements : List String) :
    Except (List String) (List String) :=
  let missing := (user_elements.filter (fun e => decide (e ∉ db_elements))).dedup
  if missing.isEmpty then
    Except.ok (user_elements.filter (fun e => decide (e ∈ db_elements)))
  else
    Except.error missing

/-- On-disk token cache file contents (`{"token": ..., "expires_in": ...}`),
with the ISO timestamp modelled as an `Int` instant. -/
structure TokenCache where
  token : String
  expires_in : Int
deriving DecidableEq, Repr

/-- `BearerRequestToken` (insysbio_db.py lines 16-20), without the raw
response object.  `expires_in = none` models the invalid marker
`BearerRequestToken(token="", expires_in=None, ...)`. -/
structure BearerRequestToken where
  token : String
  expires_in : Option Int
deriving DecidableEq, Repr

/-- The token endpoint's reply: HTTP status, and the `access_token` /
`expires_in` fields of the decoded JSON body (absent fields are `none`;
the server-reported lifetime is in seconds). -/
structure TokenResponse where
  status : Nat
  access_token : Option String
  expires_in : Option Int
deriving DecidableEq, Repr

/-- Outcome of `request_auth_token`: the returned (or raised) token, the
token cache file afterwards, and how many network token requests were
issued. -/
structure AuthResult where
  ret : Except PyError BearerRequestToken
  cache' : Option TokenCache
  networkRequests : Nat
deriving Repr

/-- The cache-miss path of `DBManagerBase.request_auth_token`
(insysbio_db.py lines 78-117): one POST to `/oauth/token`; on 200 both
`access_token` and `expires_in` must be present (else `ValueError`),
expiry is `now + expires_in` seconds and the cache file is overwritten;
on non-200 an invalid marker token is returned and nothing is written. -/
def request_fresh_token (cache : Option TokenCache) (now : Int)
    (resp : TokenResponse) : AuthResult :=
  if resp.status = 200 then
    match resp.access_token, resp.expires_in with
    | some tok, some life =>
      let expiry := now + life
      { ret := Except.ok { token := tok, expires_in := some expiry }
        cache' := some { token := tok, expires_in := expiry }
        networkRequests := 1 }
    | _, _ =>
      { ret := Except.error
          (PyError.valueError "Access token or expires_in is missing in the API response.")
        cache' := cache
        networkRequests := 1 }
  else
    { ret := Except.ok { token := "", expires_in := none }
      cache' := cache
      networkRequests := 1 }

/-- `DBManagerBase.request_auth_token` (insysbio_db.py lines 60-117):
if a cache file exists and its stored expiry is strictly later than now,
return the cached token with no network request; otherwise issue the
token request. -/
def request_auth_token (cache : Option TokenCache) (now : Int)
    (resp : TokenResponse) : AuthResult :=
  match cache with
  | some c =>
    if now < c.expires_in then
      { ret := Except.ok { token := c.token, expires_in := some c.expires_in }
        cache' := some c
        networkRequests := 0 }
    else
      request_fresh_token (some c) now resp
  | none => request_fresh_token none now resp

/-- `DBManagerBase.reset_auth_token` (insysbio_db.py lines 47-58): delete
the token cache file when it exists, do nothing (no error) when absent. -/
def reset_auth_token (cache : Option TokenCache) :
    Except PyError (Option TokenCache) :=
  match cache with
  | some _ => Except.ok none
  | none => Except.ok none

/-- `DBManagerBase.is_authenticated` (insysbio_db.py lines 119-124):
`self.token` is set and `self.token.token` is a nonempty string. -/
def is_authenticated (tok : Option BearerRequestToken) : Bool :=
  match tok with
  | some t => !(t.token == "")
  | none => false

/-- An HTTP GET response: status code and the decoded JSON body of its
text (`none` when the text is not decodable JSON). -/
structure HttpResp where
  status : Nat
  body : Option Json

/-- `APICallResult` (insysbio_db.py lines 10-13): the call's content
(as its decoded JSON, `none` when not decodable — in particular the `""`
content substituted on failure) and the response status. -/
structure APICallResult where
  body : Option Json
  status : Nat

/-- Outcome of `do_api_call`: the returned (or raised) result, the
manager's token and the token cache afterwards, and how many network
token requests were issued by the inline authentication. -/
structure ApiCallOutcome where
  ret : Except PyError APICallResult
  token' : Option BearerRequestToken
  cache' : Option TokenCache
  tokenRequests : Nat

/-- `DBManagerBase.do_api_call` (insysbio_db.py lines 126-141): when not
authenticated, run `request_auth_token` inline and raise when the
resulting token is still empty; then issue the GET, returning the
content on 200 and empty content (still no exception) otherwise. -/
def do_api_call (tok : Option BearerRequestToken) (cache : Option TokenCache)
    (now : Int) (tokenResp : TokenResponse) (resp : HttpResp) : ApiCallOutcome :=
  if is_authenticated tok then
    { ret := Except.ok
        (if resp.status = 200 then { body := resp.body, status := resp.status }
         else { body := none, status := resp.status })
      token' := tok, cache' := cache, tokenRequests := 0 }
  else
    let ar := request_auth_token cache now tokenResp
    match ar.ret with
    | Except.error e =>
      { ret := Except.error e, token' := tok, cache' := ar.cache'
        tokenRequests := ar.networkRequests }
    | Except.ok t =>
      if t.token = "" then
        { ret := Except.error
            (PyError.exception "User is not authenticated. Token request failed.")
          token' := some t, cache' := ar.cache'
          tokenRequests := ar.networkRequests }
      else
        { ret := Except.ok
            (if resp.status = 200 then { body := resp.body, status := resp.status }
             else { body := none, status := resp.status })
          token' := some t, cache' := ar.cache'
          tokenRequests := ar.networkRequests }

/-- The name extraction `item.get("Name")` applied inside the list
comprehension of `get_dictionary` (insysbio_db.py line 162): on a JSON
object it yields the `Name` field (Python `None`, i.e. `Json.null`,
when absent); on anything else `.get` raises an `AttributeError`. -/
def dict_item_name : Json → Except PyError Json
  | Json.obj fields => Except.ok ((Json.getField fields "Name").getD Json.null)
  | _ => Except.error PyError.attributeError

/-- The list comprehension `[item.get("Name") for item in response_data]`
(insysbio_db.py line 162): left to right, stopping at the first item
whose `.get` raises. -/
def map_dict_item_names : List Json → Except PyError (List Json)
  | [] => Except.ok []
  | i :: rest =>
    match dict_item_name i with
    | Except.ok v =>
      match map_dict_item_names rest with
      | Except.ok vs => Except.ok (v :: vs)
      | Except.error e => Except.error e
    | Except.error e => Except.error e

/-- The shape dispatch of `get_dictionary` (insysbio_db.py lines 160-167)
on the decoded 200 body: a list maps `item.get("Name")` over its items;
a single object takes `response_data.get("Name", [])` (so the Python
default is the empty list); anything else raises `ValueError`. -/
def extract_dictionary_data : Json → Except PyError Json
  | Json.arr items => (map_dict_item_names items).map Json.arr
  | Json.obj fields => Except.ok ((Json.getField fields "Name").getD (Json.arr []))
  | _ => Except.error (PyError.valueError "Unexpected JSON structure in API response.")

/-- Outcome of `get_dictionary`: the returned value (`ok none` models the
Python `return None`) or raised exception, the dictionary cache file for
this name afterwards, and whether the API was called. -/
structure DictOutcome where
  ret : Except PyError (Option Json)
  cache' : Option Json
  networkCalled : Bool

/-- The fetch path of `get_dictionary` (insysbio_db.py lines 152-179),
taken on a cache miss or under `force`; `api` is what `do_api_call`
returns.  Non-200 returns `None`; a 200 body that fails JSON decoding
returns `None` (the `JSONDecodeError` handler); otherwise the extracted
data is written to the cache and returned, and extraction errors
propagate. -/
def get_dictionary_fetch (cache : Option Json) (api : APICallResult) :
    DictOutcome :=
  if api.status = 200 then
    match api.body with
    | none => { ret := Except.ok none, cache' := cache, networkCalled := true }
    | some data =>
      match extract_dictionary_data data with
      | Except.ok d =>
        { ret := Except.ok (some d), cache' := some d, networkCalled := true }
      | Except.error e =>
        { ret := Except.error e, cache' := cache, networkCalled := true }
  else
    { ret := Except.ok none, cache' := cache, networkCalled := true }

/-- `DBManagerBase.get_dictionary` (insysbio_db.py lines 143-179): with
`force` false and a cache file present, return the cached JSON with no
network call; otherwise run the fetch path. -/
def get_dictionary (force : Bool) (cache : Option Json) (api : APICallResult) :
    DictOutcome :=
  match force, cache with
  | false, some cached =>
    { ret := Except.ok (some cached), cache' := some cached, networkCalled := false }
  | _, _ => get_dictionary_fetch cache api

/-- Errors of `select_header`: the headers table is empty, or a column
description was not found (`descs` lists the descriptions named in the
raised message). -/
inductive HeaderErr where
  | notLoaded
  | notFound (descs : List String)
deriving DecidableEq, Repr

/-- The row lookup of `select_header` (insysbio_db.py line 206): first
row of `headers_df` whose `ColumnDesc` equals `desc`, projected to its
`ColumnVariable`. Rows are (ColumnDesc, ColumnVariable) pairs. -/
def lookup_column_variable (rows : List (String × String)) (desc : String) :
    Option String :=
  (rows.find? (fun r => r.fst == desc)).map Prod.snd

/-- The loop of `select_header` (insysbio_db.py lines 204-211): walk the
requested descriptions in order, collecting each one's first matching
variable, raising at the first description with no match. -/
def select_header_loop (rows : List (String × String)) :
    List String → Except HeaderErr (List String)
  | [] => Except.ok []
  | desc :: rest =>
    match lookup_column_variable rows desc with
    | some v =>
      match select_header_loop rows rest with
      | Except.ok vs => Except.ok (v :: vs)
      | Except.error e => Except.error e
    | none => Except.error (HeaderErr.notFound [desc])

/-- `DBManagerBase.select_header` (insysbio_db.py lines 201-211): raise
when the headers table is empty, else run the lookup loop. -/
def select_header (rows : List (String × String)) (descs : List String) :
    Except HeaderErr (List String) :=
  if rows.isEmpty then Except.error HeaderErr.notLoaded
  else select_header_loop rows descs

/-- The request parameters `FIVEDBManager.query_data` assembles
(insysbio_db.py lines 434-446), one comma-joined string per axis. -/
structure FiveQueryParams where
  process_type : String
  parameter : String
  cell_type : String
  stimulated : String
  patient_state : String
  product : String
  daughter : String
  regulator : String
  modifier : String
  headers : String
  wstatSwitch : String
deriving DecidableEq, Repr

/-- The parameter assembly of `FIVEDBManager.query_data`:
`','.join(values)` for every axis and the headers, plus the
`wstatSwitch` flag passed through. -/
def five_query_params (process_type parameter cell_type stimulated patient_state
    product daughter regulator modifier hdrs : List String)
    (wstat_switch : String) : FiveQueryParams :=
  { process_type := String.intercalate "," process_type
    parameter := String.intercalate "," parameter
    cell_type := String.intercalate "," cell_type
    stimulated := String.intercalate "," stimulated
    patient_state := String.intercalate "," patient_state
    product := String.intercalate "," product
    daughter := String.intercalate "," daughter
    regulator := String.intercalate "," regulator
    modifier := String.intercalate "," modifier
    headers := String.intercalate "," hdrs
    wstatSwitch := wstat_switch }

/-- Outcome of `FIVEDBManager.query_data`: the assembled request
parameters and the returned table (`ok none` models `return None`) or
raised exception. The table is the decoded JSON payload handed to
`pd.DataFrame`. -/
structure QueryOutcome where
  params : FiveQueryParams
  ret : Except PyError (Option Json)

/-- `FIVEDBManager.query_data` (insysbio_db.py lines 433-453): assemble
the comma-joined parameters, issue the API call via `do_api_call`, and
on a 200 response parse the JSON content into the table
(`pd.DataFrame(json.loads(content))`, whose decode error would
propagate); on non-200 return `None`. -/
def five_query_data (tok : Option BearerRequestToken) (cache : Option TokenCache)
    (now : Int) (tokenResp : TokenResponse)
    (process_type parameter cell_type stimulated patient_state
      product daughter regulator modifier hdrs : List String)
    (wstat_switch : String) (resp : HttpResp) : QueryOutcome :=
  let params := five_query_params process_type parameter cell_type stimulated
    patient_state product daughter regulator modifier hdrs wstat_switch
  let api := do_api_call tok cache now tokenResp resp
  match api.ret with
  | Except.error e => { params := params, ret := Except.error e }
  | Except.ok r =>
    if r.status = 200 then
      match r.body with
      | some payload => { params := params, ret := Except.ok (some payload) }
      | none => { params := params, ret := Except.error PyError.jsonDecodeError }
    else
      { params := params, ret := Except.ok none }

/-- C1: for every selection on a vocabulary axis, `select_elements`
returns the requested values unchanged and in the same order when every
value is a member of the backing dictionary, and otherwise raises an
error naming exactly the set-difference `values \ dictionary` — every
missing value, not just the first. The function is pure: no network
call is involved in validation. -/
theorem select_elements_contract (user db : List String) :
    ((∀ x ∈ user, x ∈ db) → select_elements user db = Except.ok user) ∧
    ((∃ x ∈ user, x ∉ db) →
      ∃ m, select_elements user db = Except.error m ∧
        ∀ x, x ∈ m ↔ (x ∈ user ∧ x ∉ db)) := by
  constructor
  · intro h
    have hfilter : user.filter (fun e => decide (e ∉ db)) = [] := by
      rw [List.filter_eq_nil_iff]
      intro a ha
      simpa using h a ha
    have hself : user.filter (fun e => decide (e ∈ db)) = user := by
      rw [List.filter_eq_self]
      intro a ha
      simpa using h a ha
    simp only [select_elements, hfilter, hself, List.dedup_nil, List.isEmpty_nil,
      if_true]
  · rintro ⟨x, hx, hxdb⟩
    refine ⟨(user.filter (fun e => decide (e ∉ db))).dedup, ?_, ?_⟩
    · have hmem : x ∈ (user.filter (fun e => decide (e ∉ db))).dedup := by
        rw [List.mem_dedup, List.mem_filter]
        exact ⟨hx, by simpa using hxdb⟩
      have hne : ¬ (user.filter (fun e => decide (e ∉ db))).dedup.isEmpty := by
        intro hemp
        rw [List.isEmpty_iff] at hemp
        rw [hemp] at hmem
        simp at hmem
      simp only [select_elements]
      rw [if_neg hne]
    · intro y
      rw [List.mem_dedup, List.mem_filter]
      simp

/-- Witness for C1 at the spec's example: dictionary
`["Migration", "Proliferation"]`; a contained selection is returned
unchanged, and the selection `["Migration", "Invasion"]` fails naming
exactly `{"Invasion"}`. -/
theorem select_elements_contract_witness :
    select_elements ["Migration"] ["Migration", "Proliferation"] =
      Except.ok ["Migration"] ∧
    ∃ m, select_elements ["Migration", "Invasion"] ["Migration", "Proliferation"] =
        Except.error m ∧
      ∀ x, x ∈ m ↔ (x ∈ (["Migration", "Invasion"] : List String) ∧
        x ∉ (["Migration", "Proliferation"] : List String)) := by
  constructor
  · exact (select_elements_contract _ _).1 (by decide)
  · exact (select_elements_contract _ _).2 ⟨"Invasion", by decide, by decide⟩

/-- Every execution of the cache-miss path issues exactly one token
request, whatever the response. -/
theorem request_fresh_token_networkRequests (cache : Option TokenCache)
    (now : Int) (resp : TokenResponse) :
    (request_fresh_token cache now resp).networkRequests = 1 := by
  unfold request_fresh_token
  split
  · split <;> rfl
  · rfl

/-- On a cache miss (no entry, or entry expired), `request_auth_token`
runs the fresh-request path. -/
theorem request_auth_token_miss (cache : Option TokenCache) (now : Int)
    (resp : TokenResponse) (h : ∀ c, cache = some c → c.expires_in ≤ now) :
    request_auth_token cache now resp = request_fresh_token cache now resp := by
  cases cache with
  | none => rfl
  | some c =>
    have hc := h c rfl
    simp [request_auth_token, not_lt.mpr hc]

/-- C2: with a cached token whose stored expiry is strictly later than
now, `request_auth_token` returns the cached token with zero network
requests; with an expired or absent cache entry it performs exactly one
token request, and when the server replies 200 reporting a lifetime it
sets expiry to `now + lifetime` seconds and overwrites the cache with
that token and expiry. -/
theorem request_auth_token_contract :
    (∀ (c : TokenCache) (now : Int) (resp : TokenResponse), now < c.expires_in →
      request_auth_token (some c) now resp =
        { ret := Except.ok { token := c.token, expires_in := some c.expires_in }
          cache' := some c
          networkRequests := 0 }) ∧
    (∀ (cache : Option TokenCache) (now : Int) (resp : TokenResponse),
      (∀ c, cache = some c → c.expires_in ≤ now) →
      (request_auth_token cache now resp).networkRequests = 1 ∧
      (∀ tok life, resp.status = 200 → resp.access_token = some tok →
        resp.expires_in = some life →
        (request_auth_token cache now resp).cache' =
          some { token := tok, expires_in := now + life } ∧
        (request_auth_token cache now resp).ret =
          Except.ok { token := tok, expires_in := some (now + life) })) := by
  constructor
  · intro c now resp h
    simp [request_auth_token, h]
  · intro cache now resp h
    rw [request_auth_token_miss cache now resp h]
    refine ⟨request_fresh_token_networkRequests cache now resp, ?_⟩
    intro tok life hs ha he
    simp [request_fresh_token, hs, ha, he]

/-- Witness for C2: a cached token with expiry 10 at time 5 is returned
with zero requests; an empty cache at time 5 with a 200 reply of
lifetime 60 yields one request and the cache overwritten with expiry
65. -/
theorem request_auth_token_contract_witness :
    request_auth_token (some { token := "tok", expires_in := 10 }) 5
        { status := 200, access_token := some "fresh", expires_in := some 60 } =
      { ret := Except.ok { token := "tok", expires_in := some 10 }
        cache' := some { token := "tok", expires_in := 10 }
        networkRequests := 0 } ∧
    (request_auth_token none 5
        { status := 200, access_token := some "fresh", expires_in := some 60 }).networkRequests = 1 ∧
    (request_auth_token none 5
        { status := 200, access_token := some "fresh", expires_in := some 60 }).cache' =
      some { token := "fresh", expires_in := 65 } ∧
    (request_auth_token none 5
        { status := 200, access_token := some "fresh", expires_in := some 60 }).ret =
      Except.ok { token := "fresh", expires_in := some 65 } := by
  have h1 := request_auth_token_contract.1 { token := "tok", expires_in := 10 } 5
    { status := 200, access_token := some "fresh", expires_in := some 60 } (by decide)
  have h2 := request_auth_token_contract.2 none 5
    { status := 200, access_token := some "fresh", expires_in := some 60 }
    (fun c hc => by cases hc)
  have h3 := h2.2 "fresh" 60 rfl rfl rfl
  exact ⟨h1, h2.1, h3.1, h3.2⟩

/-- C7: `reset_auth_token` deletes the token cache entry unconditionally
and without error whatever the prior state (so it is idempotent), and
with the post-reset empty cache `request_auth_token` always performs a
network token request. -/
theorem reset_auth_token_contract :
    (∀ cache : Option TokenCache, reset_auth_token cache = Except.ok none) ∧
    (∀ (now : Int) (resp : TokenResponse),
      (request_auth_token none now resp).networkRequests = 1) := by
  constructor
  · intro cache
    cases cache <;> rfl
  · intro now resp
    exact request_fresh_token_networkRequests none now resp

/-- C9: the token cache file is written only by a successful (200)
authentication: on any non-200 token response the cache is left exactly
as before the call (so the invalid empty-token marker is never
persisted), and any change to the cache implies the response was 200. -/
theorem token_cache_frame_contract :
    (∀ (cache : Option TokenCache) (now : Int) (resp : TokenResponse),
      resp.status ≠ 200 →
      (request_auth_token cache now resp).cache' = cache) ∧
    (∀ (cache : Option TokenCache) (now : Int) (resp : TokenResponse),
      (request_auth_token cache now resp).cache' ≠ cache →
      resp.status = 200) := by
  have hframe : ∀ (cache : Option TokenCache) (now : Int) (resp : TokenResponse),
      resp.status ≠ 200 → (request_auth_token cache now resp).cache' = cache := by
    intro cache now resp h
    cases cache with
    | none => simp [request_auth_token, request_fresh_token, h]
    | some c =>
      by_cases hc : now < c.expires_in
      · simp [request_auth_token, hc]
      · simp [request_auth_token, hc, request_fresh_token, h]
  refine ⟨hframe, ?_⟩
  intro cache now resp h
  by_contra hs
  exact h (hframe cache now resp hs)

/-- Witness for C9: a 503 token response leaves both an expired cache
entry and an empty cache unchanged, and a change of the cache under a
200 response lets the second conjunct conclude the status was 200. -/
theorem token_cache_frame_contract_witness :
    (request_auth_token (some { token := "t", expires_in := 10 }) 20
        { status := 503, access_token := none, expires_in := none }).cache' =
      some { token := "t", expires_in := 10 } ∧
    (request_auth_token none 20
        { status := 503, access_token := none, expires_in := none }).cache' = none ∧
    (200 : Nat) = 200 := by
  refine ⟨?_, ?_, ?_⟩
  · exact token_cache_frame_contract.1 (some { token := "t", expires_in := 10 }) 20
      { status := 503, access_token := none, expires_in := none } (by decide)
  · exact token_cache_frame_contract.1 none 20
      { status := 503, access_token := none, expires_in := none } (by decide)
  · exact token_cache_frame_contract.2 none 0
      { status := 200, access_token := some "a", expires_in := some 7 } (by decide)

/-- C4: on a cache miss, a 200 token response lacking the access token
or the lifetime makes `request_auth_token` raise a fatal `ValueError`;
a non-200 token response makes it return the explicitly invalid empty
token marker without raising; and the next `do_api_call` holding that
marker (with the token endpoint still failing) raises fatally because
no usable token exists. -/
theorem auth_failure_contract :
    (∀ (cache : Option TokenCache) (now : Int) (resp : TokenResponse),
      (∀ c, cache = some c → c.expires_in ≤ now) →
      resp.status = 200 →
      (resp.access_token = none ∨ resp.expires_in = none) →
      (request_auth_token cache now resp).ret =
        Except.error (PyError.valueError
          "Access token or expires_in is missing in the API response.")) ∧
    (∀ (cache : Option TokenCache) (now : Int) (resp : TokenResponse),
      (∀ c, cache = some c → c.expires_in ≤ now) →
      resp.status ≠ 200 →
      (request_auth_token cache now resp).ret =
        Except.ok { token := "", expires_in := none }) ∧
    (∀ (cache : Option TokenCache) (now : Int) (tokenResp : TokenResponse)
      (resp : HttpResp),
      (∀ c, cache = some c → c.expires_in ≤ now) →
      tokenResp.status ≠ 200 →
      (do_api_call (some { token := "", expires_in := none }) cache now
          tokenResp resp).ret =
        Except.error
          (PyError.exception "User is not authenticated. Token request failed.")) := by
  have hmarker : ∀ (cache : Option TokenCache) (now : Int) (resp : TokenResponse),
      (∀ c, cache = some c → c.expires_in ≤ now) → resp.status ≠ 200 →
      (request_auth_token cache now resp).ret =
        Except.ok { token := "", expires_in := none } := by
    intro cache now resp hmiss hns
    rw [request_auth_token_miss cache now resp hmiss]
    simp [request_fresh_token, hns]
  refine ⟨?_, hmarker, ?_⟩
  · intro cache now resp hmiss hs hinc
    rw [request_auth_token_miss cache now resp hmiss]
    rcases hinc with ha | he
    · simp [request_fresh_token, hs, ha]
    · cases hacc : resp.access_token <;>
        simp [request_fresh_token, hs, hacc, he]
  · intro cache now tokenResp resp hmiss hns
    have har := hmarker cache now tokenResp hmiss hns
    simp [do_api_call, is_authenticated, har]

/-- Witness for C4: a 200 token response missing `expires_in` raises; a
500 response returns the empty marker; the subsequent API call holding
the marker raises the not-authenticated exception. -/
theorem auth_failure_contract_witness :
    (request_auth_token none 0
        { status := 200, access_token := some "tok", expires_in := none }).ret =
      Except.error (PyError.valueError
        "Access token or expires_in is missing in the API response.") ∧
    (request_auth_token none 0
        { status := 500, access_token := none, expires_in := none }).ret =
      Except.ok { token := "", expires_in := none } ∧
    (do_api_call (some { token := "", expires_in := none }) none 0
        { status := 500, access_token := none, expires_in := none }
        { status := 200, body := none }).ret =
      Except.error
        (PyError.exception "User is not authenticated. Token request failed.") := by
  refine ⟨?_, ?_, ?_⟩
  · exact auth_failure_contract.1 none 0
      { status := 200, access_token := some "tok", expires_in := none }
      (fun c hc => by cases hc) rfl (Or.inr rfl)
  · exact auth_failure_contract.2.1 none 0
      { status := 500, access_token := none, expires_in := none }
      (fun c hc => by cases hc) (by decide)
  · exact auth_failure_contract.2.2 none 0
      { status := 500, access_token := none, expires_in := none }
      { status := 200, body := none }
      (fun c hc => by cases hc) (by decide)

/-- C5: with a usable token held, `FIVEDBManager.query_data` joins each
axis's selected values with a comma into one request parameter per
axis, adds the comma-joined header-variable list and the `wstatSwitch`
flag; on a 200 response it returns the decoded JSON payload as the
table, and on any non-200 response it returns `None`, never raising. -/
theorem five_query_data_contract
    (tok : Option BearerRequestToken) (cache : Option TokenCache) (now : Int)
    (tokenResp : TokenResponse)
    (process_type parameter cell_type stimulated patient_state product daughter
      regulator modifier hdrs : List String)
    (wstat_switch : String) (resp : HttpResp)
    (hauth : is_authenticated tok = true) :
    (five_query_data tok cache now tokenResp process_type parameter cell_type
        stimulated patient_state product daughter regulator modifier hdrs
        wstat_switch resp).params =
      { process_type := String.intercalate "," process_type
        parameter := String.intercalate "," parameter
        cell_type := String.intercalate "," cell_type
        stimulated := String.intercalate "," stimulated
        patient_state := String.intercalate "," patient_state
        product := String.intercalate "," product
        daughter := String.intercalate "," daughter
        regulator := String.intercalate "," regulator
        modifier := String.intercalate "," modifier
        headers := String.intercalate "," hdrs
        wstatSwitch := wstat_switch } ∧
    (∀ payload, resp.status = 200 → resp.body = some payload →
      (five_query_data tok cache now tokenResp process_type parameter cell_type
          stimulated patient_state product daughter regulator modifier hdrs
          wstat_switch resp).ret = Except.ok (some payload)) ∧
    (resp.status ≠ 200 →
      (five_query_data tok cache now tokenResp process_type parameter cell_type
          stimulated patient_state product daughter regulator modifier hdrs
          wstat_switch resp).ret = Except.ok none) := by
  refine ⟨?_, ?_, ?_⟩
  · by_cases hs : resp.status = 200
    · cases hb : resp.body <;>
        simp [five_query_data, five_query_params, do_api_call, hauth, hs, hb]
    · simp [five_query_data, five_query_params, do_api_call, hauth, hs]
  · intro payload hs hb
    simp [five_query_data, do_api_call, hauth, hs, hb]
  · intro hs
    simp [five_query_data, do_api_call, hauth, hs]

/-- Witness for C5 at the spec's end-to-end example: process type
`Migration`, parameter `Emax`, all other axes empty, headers
`param, param_val`; a 200 response with one row yields that payload,
and a 500 response yields `None`. -/
theorem five_query_data_contract_witness :
    (five_query_data (some { token := "tkn", expires_in := some 100 }) none 0
        { status := 200, access_token := none, expires_in := none }
        ["Migration"] ["Emax"] [] [] [] [] [] [] [] ["param", "param_val"]
        "false"
        { status := 200
          body := some (Json.arr [Json.obj
            [("param", Json.str "Emax"), ("param_val", Json.str "1.2")]]) }).params =
      { process_type := "Migration", parameter := "Emax", cell_type := ""
        stimulated := "", patient_state := "", product := "", daughter := ""
        regulator := "", modifier := "", headers := "param,param_val"
        wstatSwitch := "false" } ∧
    (five_query_data (some { token := "tkn", expires_in := some 100 }) none 0
        { status := 200, access_token := none, expires_in := none }
        ["Migration"] ["Emax"] [] [] [] [] [] [] [] ["param", "param_val"]
        "false"
        { status := 200
          body := some (Json.arr [Json.obj
            [("param", Json.str "Emax"), ("param_val", Json.str "1.2")]]) }).ret =
      Except.ok (some (Json.arr [Json.obj
        [("param", Json.str "Emax"), ("param_val", Json.str "1.2")]])) ∧
    (five_query_data (some { token := "tkn", expires_in := some 100 }) none 0
        { status := 200, access_token := none, expires_in := none }
        ["Migration"] ["Emax"] [] [] [] [] [] [] [] ["param", "param_val"]
        "false" { status := 500, body := none }).ret = Except.ok none := by
  have h1 := five_query_data_contract
    (some { token := "tkn", expires_in := some 100 }) none 0
    { status := 200, access_token := none, expires_in := none }
    ["Migration"] ["Emax"] [] [] [] [] [] [] [] ["param", "param_val"] "false"
    { status := 200
      body := some (Json.arr [Json.obj
        [("param", Json.str "Emax"), ("param_val", Json.str "1.2")]]) }
    (by decide)
  have h2 := five_query_data_contract
    (some { token := "tkn", expires_in := some 100 }) none 0
    { status := 200, access_token := none, expires_in := none }
    ["Migration"] ["Emax"] [] [] [] [] [] [] [] ["param", "param_val"] "false"
    { status := 500, body := none } (by decide)
  refine ⟨?_, ?_, ?_⟩
  · rw [h1.1]
    rfl
  · exact h1.2.1 _ rfl rfl
  · exact h2.2.2 (by decide)

/-- With `force` set, `get_dictionary` takes the fetch path whatever the
cache state. -/
theorem get_dictionary_force (cache : Option Json) (api : APICallResult) :
    get_dictionary true cache api = get_dictionary_fetch cache api := by
  cases cache <;> rfl

/-- With no cache entry, `get_dictionary` takes the fetch path whatever
the force flag. -/
theorem get_dictionary_no_cache (force : Bool) (api : APICallResult) :
    get_dictionary force none api = get_dictionary_fetch none api := by
  cases force <;> rfl

/-- The fetch path always performs the API call. -/
theorem get_dictionary_fetch_network (cache : Option Json) (api : APICallResult) :
    (get_dictionary_fetch cache api).networkCalled = true := by
  unfold get_dictionary_fetch
  split
  · split
    · rfl
    · split <;> rfl
  · rfl

/-- C6: dictionary cache round-trip: whatever list a successful fetch
wrote to the cache, `get_dictionary` with `force = false` on that cache
state returns exactly it with no network call (first two conjuncts),
while `force = true` bypasses the cache and calls the API for every
cache state (third conjunct). -/
theorem get_dictionary_cache_contract :
    (∀ (j : Json) (api : APICallResult),
      get_dictionary false (some j) api =
        { ret := Except.ok (some j), cache' := some j, networkCalled := false }) ∧
    (∀ (oldCache : Option Json) (api api2 : APICallResult) (d : Json),
      (get_dictionary true oldCache api).cache' = some d →
      get_dictionary false (some d) api2 =
        { ret := Except.ok (some d), cache' := some d, networkCalled := false }) ∧
    (∀ (cache : Option Json) (api : APICallResult),
      (get_dictionary true cache api).networkCalled = true) := by
  refine ⟨fun j api => rfl, fun oldCache api api2 d _ => rfl, fun cache api => ?_⟩
  rw [get_dictionary_force]
  exact get_dictionary_fetch_network cache api

/-- Witness for C6: a 200 fetch of `[{"Name":"A"},{"Name":"B"},{"Name":"C"}]`
writes `["A","B","C"]` to the cache; re-reading with `force = false`
returns it with no network call, and a forced read still calls the
network. -/
theorem get_dictionary_cache_contract_witness :
    get_dictionary false
        (some (Json.arr [Json.str "A", Json.str "B", Json.str "C"]))
        { body := none, status := 500 } =
      { ret := Except.ok (some (Json.arr [Json.str "A", Json.str "B", Json.str "C"]))
        cache' := some (Json.arr [Json.str "A", Json.str "B", Json.str "C"])
        networkCalled := false } ∧
    (get_dictionary true
        (some (Json.arr [Json.str "A", Json.str "B", Json.str "C"]))
        { body := none, status := 500 }).networkCalled = true := by
  constructor
  · exact get_dictionary_cache_contract.2.1 none
      { body := some (Json.arr [Json.obj [("Name", Json.str "A")],
          Json.obj [("Name", Json.str "B")], Json.obj [("Name", Json.str "C")]])
        status := 200 }
      { body := none, status := 500 }
      (Json.arr [Json.str "A", Json.str "B", Json.str "C"]) rfl
  · exact get_dictionary_cache_contract.2.2
      (some (Json.arr [Json.str "A", Json.str "B", Json.str "C"]))
      { body := none, status := 500 }

/-- The shapes that claim C8 designates as the only accepted ones: a
list of objects each exposing a `Name` field, or a single object
exposing a `Name` field.  This definition follows the claim's wording,
to be compared against `get_dictionary`'s actual behaviour. -/
def exposes_name_field : Json → Bool
  | Json.obj fields => (Json.getField fields "Name").isSome
  | _ => false

/-- See `exposes_name_field`: the claim's accepted-shape predicate. -/
def claimed_accepted_shape : Json → Bool
  | Json.arr items => items.all exposes_name_field
  | j => exposes_name_field j

/-- C8 counterexample: the decoded 200 body `{}` (an object with no
`Name` field) is neither of the claim's accepted shapes, yet
`get_dictionary` returns the empty list instead of raising a fatal
parse error. -/
theorem get_dictionary_parse_error_counterexample :
    claimed_accepted_shape (Json.obj []) = false ∧
    (get_dictionary true none
        { body := some (Json.obj []), status := 200 }).ret =
      Except.ok (some (Json.arr [])) := by
  exact ⟨rfl, rfl⟩

/-- C8 (amended): on a cache miss (forced or no cache entry),
`get_dictionary` returns `None` on a non-200 response and on a JSON
decode failure; on a 200 response whose decoded JSON is neither a list
nor an object it raises a fatal parse error rather than returning
`None`. -/
theorem get_dictionary_error_contract :
    (∀ (force : Bool) (cache : Option Json) (api : APICallResult),
      (force = true ∨ cache = none) → api.status ≠ 200 →
      (get_dictionary force cache api).ret = Except.ok none) ∧
    (∀ (force : Bool) (cache : Option Json) (api : APICallResult),
      (force = true ∨ cache = none) → api.status = 200 → api.body = none →
      (get_dictionary force cache api).ret = Except.ok none) ∧
    (∀ (force : Bool) (cache : Option Json) (api : APICallResult) (j : Json),
      (force = true ∨ cache = none) → api.status = 200 → api.body = some j →
      (∀ items, j ≠ Json.arr items) → (∀ fields, j ≠ Json.obj fields) →
      (get_dictionary force cache api).ret =
        Except.error
          (PyError.valueError "Unexpected JSON structure in API response.")) := by
  have hfetch : ∀ (force : Bool) (cache : Option Json) (api : APICallResult),
      (force = true ∨ cache = none) →
      get_dictionary force cache api = get_dictionary_fetch cache api := by
    rintro force cache api (hf | hc)
    · subst hf
      exact get_dictionary_force cache api
    · subst hc
      exact get_dictionary_no_cache force api
  refine ⟨?_, ?_, ?_⟩
  · intro force cache api hmiss hs
    rw [hfetch force cache api hmiss]
    simp [get_dictionary_fetch, hs]
  · intro force cache api hmiss hs hb
    rw [hfetch force cache api hmiss]
    simp [get_dictionary_fetch, hs, hb]
  · intro force cache api j hmiss hs hb hna hno
    rw [hfetch force cache api hmiss]
    cases j with
    | arr items => exact absurd rfl (hna items)
    | obj fields => exact absurd rfl (hno fields)
    | null => simp [get_dictionary_fetch, hs, hb, extract_dictionary_data]
    | bool b => simp [get_dictionary_fetch, hs, hb, extract_dictionary_data]
    | num n => simp [get_dictionary_fetch, hs, hb, extract_dictionary_data]
    | str s => simp [get_dictionary_fetch, hs, hb, extract_dictionary_data]

/-- Witness for the amended C8: a 404 fetch returns `None`; a 200
response with undecodable content returns `None`; a 200 response whose
body decodes to the JSON string `"x"` raises the fatal parse
`ValueError`. -/
theorem get_dictionary_error_contract_witness :
    (get_dictionary true none { body := none, status := 404 }).ret =
      Except.ok none ∧
    (get_dictionary false none { body := none, status := 200 }).ret =
      Except.ok none ∧
    (get_dictionary true none
        { body := some (Json.str "x"), status := 200 }).ret =
      Except.error
        (PyError.valueError "Unexpected JSON structure in API response.") := by
  refine ⟨?_, ?_, ?_⟩
  · exact get_dictionary_error_contract.1 true none
      { body := none, status := 404 } (Or.inl rfl) (by decide)
  · exact get_dictionary_error_contract.2.1 false none
      { body := none, status := 200 } (Or.inr rfl) rfl rfl
  · exact get_dictionary_error_contract.2.2 true none
      { body := some (Json.str "x"), status := 200 } (Json.str "x")
      (Or.inl rfl) rfl rfl (fun items h => by cases h) (fun fields h => by cases h)

/-- The value `item.get("Name")` contributes for a JSON-object item:
the `Name` field, or Python `None` (`Json.null`) when absent;
insysbio_db.py line 162. -/
def extracted_name : Json → Json
  | Json.obj fields => (Json.getField fields "Name").getD Json.null
  | _ => Json.null

/-- Over a list all of whose items are objects, the comprehension of
`get_dictionary` succeeds and maps each item to its extracted name. -/
theorem map_dict_item_names_of_objects (items : List Json)
    (h : ∀ i ∈ items, ∃ fs, i = Json.obj fs) :
    map_dict_item_names items = Except.ok (items.map extracted_name) := by
  induction items with
  | nil => rfl
  | cons i rest ih =>
    obtain ⟨fs, hfs⟩ := h i (by simp)
    subst hfs
    have hrest := ih (fun j hj => h j (by simp [hj]))
    simp [map_dict_item_names, dict_item_name, extracted_name, hrest]

/-- C10: a 200 dictionary response decoding to a single object with no
`Name` field makes `get_dictionary` return the empty list and write it
to the cache (no exception, no `None`); and over a 200 list response
whose items are all objects, each item lacking a `Name` field
contributes a null entry to the returned list rather than failing. -/
theorem get_dictionary_lenient_extraction :
    (∀ (cache : Option Json) (fields : List (String × Json)),
      Json.getField fields "Name" = none →
      get_dictionary true cache
          { body := some (Json.obj fields), status := 200 } =
        { ret := Except.ok (some (Json.arr []))
          cache' := some (Json.arr []), networkCalled := true }) ∧
    (∀ (cache : Option Json) (items : List Json),
      (∀ i ∈ items, ∃ fs, i = Json.obj fs) →
      (get_dictionary true cache
          { body := some (Json.arr items), status := 200 }).ret =
        Except.ok (some (Json.arr (items.map extracted_name)))) := by
  constructor
  · intro cache fields hname
    rw [get_dictionary_force]
    simp [get_dictionary_fetch, extract_dictionary_data, hname]
  · intro cache items h
    rw [get_dictionary_force]
    simp [get_dictionary_fetch, extract_dictionary_data, Except.map,
      map_dict_item_names_of_objects items h]

/-- Witness for C10: the body `{}` yields the empty list written to the
cache, and the body `[{"Name":"A"},{}]` yields `["A", null]`. -/
theorem get_dictionary_lenient_extraction_witness :
    get_dictionary true none { body := some (Json.obj []), status := 200 } =
      { ret := Except.ok (some (Json.arr []))
        cache' := some (Json.arr []), networkCalled := true } ∧
    (get_dictionary true none
        { body := some (Json.arr [Json.obj [("Name", Json.str "A")], Json.obj []])
          status := 200 }).ret =
      Except.ok (some (Json.arr [Json.str "A", Json.null])) := by
  constructor
  · exact get_dictionary_lenient_extraction.1 none [] rfl
  · have h := get_dictionary_lenient_extraction.2 none
      [Json.obj [("Name", Json.str "A")], Json.obj []]
      (by
        intro i hi
        simp only [List.mem_cons, List.not_mem_nil, or_false] at hi
        rcases hi with hi | hi
        · exact ⟨[("Name", Json.str "A")], hi⟩
        · exact ⟨[], hi⟩)
    simpa [extracted_name, Json.getField] using h

/-- When every requested description has a matching row, the lookup loop
returns each one's first-match variable, in request order. -/
theorem select_header_loop_ok (rows : List (String × String)) (descs : List String)
    (h : ∀ d ∈ descs, (lookup_column_variable rows d).isSome) :
    select_header_loop rows descs =
      Except.ok (descs.filterMap (lookup_column_variable rows)) := by
  induction descs with
  | nil => rfl
  | cons d rest ih =>
    obtain ⟨v, hv⟩ := Option.isSome_iff_exists.mp (h d (by simp))
    have hrest := ih (fun x hx => h x (by simp [hx]))
    simp [select_header_loop, hv, hrest, List.filterMap_cons]

/-- The lookup loop raises at the first unmatched description, naming
that description alone. -/
theorem select_header_loop_first_err (rows : List (String × String))
    (pre : List String) (d : String) (rest : List String)
    (hpre : ∀ p ∈ pre, (lookup_column_variable rows p).isSome)
    (hd : lookup_column_variable rows d = none) :
    select_header_loop rows (pre ++ d :: rest) =
      Except.error (HeaderErr.notFound [d]) := by
  induction pre with
  | nil => simp [select_header_loop, hd]
  | cons p ps ih =>
    obtain ⟨v, hv⟩ := Option.isSome_iff_exists.mp (hpre p (by simp))
    have hps := ih (fun x hx => hpre x (by simp [hx]))
    simp [select_header_loop, hv, hps]

/-- C3 counterexample: with catalog `[("A", "a")]` and request
`["X", "Y"]`, both `"X"` and `"Y"` are absent from the catalog, but the
raised error names only `"X"` — the whole selection fails at the first
unmatched description, not with the full list of offending values. -/
theorem select_header_counterexample :
    select_header [("A", "a")] ["X", "Y"] =
      Except.error (HeaderErr.notFound ["X"]) ∧
    lookup_column_variable [("A", "a")] "Y" = none ∧
    "Y" ∈ (["X", "Y"] : List String) ∧
    "Y" ∉ (["X"] : List String) := by
  exact ⟨rfl, rfl, by decide, by decide⟩

/-- C3 (amended): on a nonempty header catalog, `select_header` returns,
for each requested column description, the first exactly-matching row's
variable name, in the same order as requested; if any description is
absent the whole selection fails fatally with no partial result, with
an error naming the first offending description (not the full list of
offending values). -/
theorem select_header_contract (rows : List (String × String))
    (descs : List String) (hrows : rows ≠ []) :
    ((∀ d ∈ descs, (lookup_column_variable rows d).isSome) →
      select_header rows descs =
        Except.ok (descs.filterMap (lookup_column_variable rows))) ∧
    (∀ pre d rest, descs = pre ++ d :: rest →
      (∀ p ∈ pre, (lookup_column_variable rows p).isSome) →
      lookup_column_variable rows d = none →
      select_header rows descs = Except.error (HeaderErr.notFound [d])) := by
  have hne : rows.isEmpty = false := by
    cases rows with
    | nil => exact absurd rfl hrows
    | cons r rs => rfl
  constructor
  · intro h
    simp [select_header, hne, select_header_loop_ok rows descs h]
  · intro pre d rest hdescs hpre hd
    subst hdescs
    simp [select_header, hne, select_header_loop_first_err rows pre d rest hpre hd]

/-- Witness for the amended C3 at the spec's example: the catalog
`{"Parameter value": "param_val"}` maps `["Parameter value"]` to
`["param_val"]`, and a request containing the absent description
`"absent"` fails naming it. -/
theorem select_header_contract_witness :
    select_header [("Parameter value", "param_val")] ["Parameter value"] =
      Except.ok ["param_val"] ∧
    select_header [("Parameter value", "param_val")]
        ["Parameter value", "absent"] =
      Except.error (HeaderErr.notFound ["absent"]) := by
  constructor
  · have h := (select_header_contract [("Parameter value", "param_val")]
      ["Parameter value"] (by decide)).1 (by decide)
    rw [h]
    rfl
  · exact (select_header_contract [("Parameter value", "param_val")]
      ["Parameter value", "absent"] (by decide)).2
      ["Parameter value"] "absent" [] rfl (by decide) rfl

end InsysbioDB
